/-
  Verification of the admin-panel CRUD engine and command/query bus of a
  FastAPI DDD template repository.

  Shallow embedding conventions:
  * Python `dict[str, str]` values are association lists `List (String × α)`;
    `dict.get(k, default)` is `dictGet?`/`getD`, `k in d` is `hasKey`, and
    `d[k] = v` (insert-or-overwrite preserving position) is `dictInsert`.
  * Python string builtins `str.strip`, `int(s)`, `float(s)` are modelled on
    `List Char` for the ASCII fragment the admin forms use: `pyStrip`,
    `pyIntParse` (returns the parsed integer, `none` when `int()` raises
    `ValueError`) and `pyFloatOk` (whether `float()` succeeds; the IEEE value
    itself is never needed by the properties, only parse success and the
    int-vs-float tag).  Non-ASCII digits and non-ASCII whitespace are outside
    the model.
  * Fallible Python code (a `raise` that escapes the function) is `Option`.
-/
import Mathlib

set_option maxHeartbeats 1000000

/-! ## Python string primitives -/
/-- ASCII whitespace recognised by `str.strip()` (space, tab, LF, CR, VT, FF). -/
def isPySpace (c : Char) : Bool :=
  c = ' ' || c = '\t' || c = '\n' || c = '\r' || c.toNat = 11 || c.toNat = 12

/-- `str.strip()` on the character list. -/
def pyStripList (l : List Char) : List Char :=
  ((l.dropWhile isPySpace).reverse.dropWhile isPySpace).reverse

/-- Python `s.strip()`. -/
def pyStrip (s : String) : String := String.mk (pyStripList s.data)

/-- Tail of a digit group: digits with single underscores between digits
(Python numeric-literal underscore rule). -/
def digitsUSTail : List Char → Bool
  | [] => true
  | '_' :: c :: rest => c.isDigit && digitsUSTail rest
  | ['_'] => false
  | c :: rest => c.isDigit && digitsUSTail rest

/-- Non-empty ASCII digit group, underscores allowed only between digits. -/
def digitsUS (l : List Char) : Bool :=
  match l with
  | [] => false
  | c :: rest => c.isDigit && digitsUSTail rest

/-- Numeric value of a digit group (underscores skipped). -/
def digitsVal (l : List Char) : Nat :=
  l.foldl (fun acc c => if c = '_' then acc else acc * 10 + (c.toNat - 48)) 0

/-- Python `int(s)` on a string: strip, optional sign, digit group.
`none` models `ValueError`. -/
def pyIntParse (s : String) : Option Int :=
  match pyStripList s.data with
  | [] => none
  | c :: rest =>
      if c = '+' then (if digitsUS rest then some (digitsVal rest : Int) else none)
      else if c = '-' then (if digitsUS rest then some (-(digitsVal rest : Int)) else none)
      else if digitsUS (c :: rest) then some (digitsVal (c :: rest) : Int) else none

/-- Drop one optional leading sign character. -/
def dropSign (l : List Char) : List Char :=
  match l with
  | [] => []
  | c :: rest => if c = '+' || c = '-' then rest else c :: rest

/-- The special float words `inf`, `infinity`, `nan` (case-insensitive),
sign already removed. -/
def pyFloatSpecialWord (l : List Char) : Bool :=
  l.map Char.toLower = ['i', 'n', 'f'] ||
  l.map Char.toLower = ['i', 'n', 'f', 'i', 'n', 'i', 't', 'y'] ||
  l.map Char.toLower = ['n', 'a', 'n']

/-- Exponent marker of a float literal. -/
def isExpChar (c : Char) : Bool := c = 'e' || c = 'E'

/-- Mantissa of a Python float literal: optional integer part, optional
fractional part around at most one dot, at least one digit overall. -/
def mantissaOk (l : List Char) : Bool :=
  let intPart := l.takeWhile (fun c => !(c = '.' : Bool))
  match l.dropWhile (fun c => !(c = '.' : Bool)) with
  | [] => digitsUS intPart
  | _ :: fracPart =>
      (intPart.isEmpty || digitsUS intPart) &&
      (fracPart.isEmpty || digitsUS fracPart) &&
      !(intPart.isEmpty && fracPart.isEmpty)

/-- Exponent of a Python float literal: optional sign then a digit group. -/
def expPartOk (l : List Char) : Bool := digitsUS (dropSign l)

/-- Whether Python `float(s)` succeeds: strip, optional sign, then either a
special word or mantissa with optional exponent. -/
def pyFloatOk (s : String) : Bool :=
  let body := dropSign (pyStripList s.data)
  if pyFloatSpecialWord body then true
  else
    let mant := body.takeWhile (fun c => !(isExpChar c))
    match body.dropWhile (fun c => !(isExpChar c)) with
    | [] => mantissaOk mant
    | _ :: expPart => mantissaOk mant && expPartOk expPart

/-! ## Python dict model -/
/-- `d.get(k)` on a Python dict modelled as an association list. -/
def dictGet? {α : Type} : List (String × α) → String → Option α
  | [], _ => none
  | (k', v) :: rest, k => if k' = k then some v else dictGet? rest k

/-- `k in d` on a Python dict. -/
def hasKey {α : Type} (m : List (String × α)) (k : String) : Bool :=
  (dictGet? m k).isSome

/-- `d[k] = v` on a Python dict: overwrite in place when the key exists
(keeping its position), otherwise append at the end. -/
def dictInsert {α : Type} : List (String × α) → String → α → List (String × α)
  | [], k, v => [(k, v)]
  | (k', v') :: rest, k, v =>
      if k' = k then (k, v) :: rest else (k', v') :: dictInsert rest k v

/-! ## `app/admin/resource.py`: field and column configuration -/
/-- `FieldType` enum (`resource.py`). -/
inductive FieldType
  | text
  | number
  | boolean
  | date
  | datetime
  | select
  | textarea
deriving DecidableEq, Repr

/-- `FieldConfig` dataclass (`resource.py`). -/
structure FieldConfig where
  name : String
  label : String
  field_type : FieldType
  required : Bool := true
  choices : Option (List (String × String)) := none
  placeholder : Option String := none
  help_text : Option String := none
  readonly : Bool := false
deriving DecidableEq, Repr

/-- `ColumnConfig` dataclass (`resource.py`). -/
structure ColumnConfig where
  name : String
  label : String
  link_to_detail : Bool := false
deriving DecidableEq, Repr

/-- Python truthiness of the `choices` attribute (`field.choices` is
`None`-able and an empty list is falsy). -/
def choicesTruthy (c : Option (List (String × String))) : Bool :=
  match c with
  | none => false
  | some l => !l.isEmpty

/-- The set of valid submitted values of a select field:
`{c[0] for c in field.choices}`. -/
def choiceValues (c : Option (List (String × String))) : List String :=
  (c.getD []).map Prod.fst

/-! ## `app/admin/views/forms.py`: validation and coercion -/
/-- Loop body accumulator form of `validate_form` (`forms.py`, lines 13-36):
for each non-readonly field, the stripped submitted value is checked in
order: required/non-boolean/blank, then number parse, then select choice. -/
def validateAux (data : List (String × String)) :
    List FieldConfig → List (String × String) → List (String × String)
  | [], errors => errors
  | f :: rest, errors =>
      if f.readonly then validateAux data rest errors
      else
        let value := pyStrip ((dictGet? data f.name).getD "")
        if f.required && !(f.field_type = FieldType.boolean : Bool) && (value = "" : Bool) then
          validateAux data rest (dictInsert errors f.name "This field is required.")
        else
          let errors1 :=
            if !(value = "" : Bool) && (f.field_type = FieldType.number : Bool)
                && !(pyFloatOk value) then
              dictInsert errors f.name "Must be a number."
            else errors
          let errors2 :=
            if !(value = "" : Bool) && (f.field_type = FieldType.select : Bool)
                && choicesTruthy f.choices
                && !((choiceValues f.choices).contains value) then
              dictInsert errors1 f.name "Invalid choice."
            else errors1
          validateAux data rest errors2

/-- `validate_form(fields, data)` (`forms.py`). -/
def validate_form (fields : List FieldConfig) (data : List (String × String)) :
    List (String × String) :=
  validateAux data fields []

/-- `_validate_form` in `resource_create.py` (lines 19-42) is a verbatim
duplicate of `forms.validate_form`. -/
def under_validate_form (fields : List FieldConfig)
    (data : List (String × String)) : List (String × String) :=
  validate_form fields data

/-- Coerced Python value produced by form coercion.  `float src` records
that `float(src)` was produced; the IEEE value itself is not modelled
(no property below depends on it). -/
inductive PyValue
  | bool (b : Bool)
  | int (n : Int)
  | float (src : String)
  | str (s : String)
  | none
deriving DecidableEq, Repr

/-- Loop body accumulator form of `coerce_form_data` (`forms.py`, lines
39-62). `none` models the loop raising `ValueError` (when on a number
field both `int(value)` and the fallback `float(value)` fail). -/
def coerceAux (raw : List (String × String)) :
    List FieldConfig → List (String × PyValue) → Option (List (String × PyValue))
  | [], result => some result
  | f :: rest, result =>
      if f.readonly then coerceAux raw rest result
      else
        let value := pyStrip ((dictGet? raw f.name).getD "")
        if f.field_type = FieldType.boolean then
          coerceAux raw rest (dictInsert result f.name (PyValue.bool (hasKey raw f.name)))
        else if (f.field_type = FieldType.number : Bool) && !(value = "" : Bool) then
          match pyIntParse value with
          | some n => coerceAux raw rest (dictInsert result f.name (PyValue.int n))
          | Option.none =>
              if pyFloatOk value then
                coerceAux raw rest (dictInsert result f.name (PyValue.float value))
              else Option.none
        else if !(value = "" : Bool) then
          coerceAux raw rest (dictInsert result f.name (PyValue.str value))
        else
          coerceAux raw rest
            (dictInsert result f.name (if f.required then PyValue.str "" else PyValue.none))

/-- `coerce_form_data(fields, raw)` (`forms.py`): `int(value)` first, falling
back to `float(value)` for values like `"1e3"`. -/
def coerce_form_data (fields : List FieldConfig) (raw : List (String × String)) :
    Option (List (String × PyValue)) :=
  coerceAux raw fields []

/-- Loop body of `_coerce_form_data` in `resource_create.py` (lines 45-64):
the number branch is `float(value) if "." in value else int(value)`, so an
exponent form without a decimal point reaches `int()` and raises. -/
def underCoerceAux (raw : List (String × String)) :
    List FieldConfig → List (String × PyValue) → Option (List (String × PyValue))
  | [], result => some result
  | f :: rest, result =>
      if f.readonly then underCoerceAux raw rest result
      else
        let value := pyStrip ((dictGet? raw f.name).getD "")
        if f.field_type = FieldType.boolean then
          underCoerceAux raw rest (dictInsert result f.name (PyValue.bool (hasKey raw f.name)))
        else if (f.field_type = FieldType.number : Bool) && !(value = "" : Bool) then
          if value.data.contains '.' then
            if pyFloatOk value then
              underCoerceAux raw rest (dictInsert result f.name (PyValue.float value))
            else Option.none
          else
            match pyIntParse value with
            | some n => underCoerceAux raw rest (dictInsert result f.name (PyValue.int n))
            | Option.none => Option.none
        else if !(value = "" : Bool) then
          underCoerceAux raw rest (dictInsert result f.name (PyValue.str value))
        else
          underCoerceAux raw rest
            (dictInsert result f.name (if f.required then PyValue.str "" else PyValue.none))

/-- `_coerce_form_data(fields, raw)` (`resource_create.py`). -/
def under_coerce_form_data (fields : List FieldConfig)
    (raw : List (String × String)) : Option (List (String × PyValue)) :=
  underCoerceAux raw fields []

/-- A select field with two configured choices, used in concrete checks. -/
def selField : FieldConfig := { name := "s", label := "S", field_type := FieldType.select, choices := some [("x", "X"), ("y", "Y")] }

/-- A select field whose `choices` is `None`, used in concrete checks. -/
def selFieldNoChoices : FieldConfig := { name := "s", label := "S", field_type := FieldType.select, choices := none }

/-! ## `app/admin/auth.py`: CSRF validation -/
/-- Python truthiness of a `str | None` value: `None` and `""` are falsy. -/
def truthyStr (s : Option String) : Bool :=
  match s with
  | none => false
  | some s => !(s = "" : Bool)

/-- `validate_csrf(request, submitted_token)` (`auth.py`, lines 76-81) as a
function of the session token (`request.session.get("_csrf_token")`) and the
submitted token.  `secrets.compare_digest` is string equality; its
constant-time execution is a timing property outside the model. -/
def validate_csrf (sessionToken submitted : Option String) : Bool :=
  if !(truthyStr sessionToken) || !(truthyStr submitted) then false
  else (sessionToken.getD "" = submitted.getD "" : Bool)

/-! ## `app/admin/utils.py`: pagination -/
/-- The exact integer ceiling of `a / b` for `b > 0` — the value the spec's
formula `max(1, ceil(total_count / page_size))` prescribes.  The source
instead computes `math.ceil(total_count / page_size)` over IEEE binary64
true division, which agrees with this exact ceiling only while the quotient
fits 53 bits of precision: for `total_count = 2^53 + 1, page_size = 1` the
float path returns `2^53` while the exact ceiling is `2^53 + 1` (see
`C7_float_division_diverges`). -/
def ceilDivInt (a b : Int) : Int := -((-a) / b)

/-- Round-to-nearest-even of a natural number to an IEEE binary64 value
(53-bit significand), as Python's int-to-float conversion performs below
the overflow threshold.  For `page_size = 1` the source's
`total_count / page_size` is exactly `float(total_count)`, i.e. this
rounding applied to the dividend. -/
def roundNatToB64 (n : Nat) : Nat :=
  if n ≤ 2 ^ 53 then n
  else
    let e := Nat.log2 n - 52
    let q := n / 2 ^ e
    let r := n % 2 ^ e
    let half := 2 ^ (e - 1)
    let q' := if half < r || ((r = half : Bool) && q % 2 = 1) then q + 1 else q
    q' * 2 ^ e

/-- Result record of `compute_pagination` (`utils.py`). -/
structure Pagination where
  offset : Int
  total_pages : Int
  has_prev : Bool
  has_next : Bool
deriving DecidableEq, Repr

/-- `compute_pagination(page, page_size, total_count)` (`utils.py`, lines
8-26), with the `math.ceil(total_count / page_size)` expression embedded as
the exact integer ceiling; the float-division divergence beyond 53 bits is
the subject of `C7_float_division_diverges`. -/
def compute_pagination (page page_size total_count : Int) : Pagination :=
  let total_pages := if page_size > 0 then max 1 (ceilDivInt total_count page_size) else 1
  { offset := (page - 1) * page_size
    total_pages := total_pages
    has_prev := decide (page > 1)
    has_next := decide (page < total_pages) }

/-! ## `app/admin/resource.py`: `ResourceAdmin.__post_init__` -/
/-- Split a character list at `-` separators (each separator starts a new
group; no separator merging). -/
def splitDash : List Char → List (List Char)
  | [] => [[]]
  | c :: rest =>
      match splitDash rest with
      | [] => [[c]]
      | p :: ps => if c = '-' then [] :: p :: ps else (c :: p) :: ps

/-- Whether a slug group is a nonempty run of `[a-z0-9]`. -/
def slugPartOk (p : List Char) : Bool :=
  !p.isEmpty && p.all (fun c => c.isLower || c.isDigit)

/-- Remove one trailing newline if present.  Python's `$` anchor (outside
MULTILINE mode) matches at the end of the string or just before a newline
at the end of the string, so `_SLUG_RE.match` also accepts a slug followed
by exactly one trailing `\n`. -/
def dropTrailingNewline (l : List Char) : List Char :=
  match l.reverse with
  | '\n' :: rest => rest.reverse
  | _ => l

/-- `_SLUG_RE.match(name)` truthiness for
`_SLUG_RE = ^[a-z0-9]+(?:-[a-z0-9]+)*$`: hyphen-separated nonempty
lowercase-alphanumeric groups, optionally followed by one trailing newline
(tolerated by `$`; the groups themselves cannot contain a newline, so
exactly the last character may be one). -/
def slugOk (s : String) : Bool :=
  (splitDash (dropTrailingNewline s.data)).all slugPartOk

/-- The constructor-time configuration errors of `ResourceAdmin`
(`__post_init__` raises `ValueError`; the spec names them `InvalidSlug`,
`EmptyColumnList`, `EmptyFieldList`, `MissingIdField`,
`SelectMissingChoices`). -/
inductive ResourceError
  | invalidSlug
  | emptyColumnList
  | emptyFieldList
  | missingIdField
  | selectMissingChoices
deriving DecidableEq, Repr

/-- `ResourceAdmin` dataclass fields (`resource.py`).  The `dao` collaborator
is an external object with no bearing on the construction invariants and is
not modelled. -/
structure ResourceAdmin where
  name : String
  display_name : String
  list_columns : List ColumnConfig
  form_fields : List FieldConfig
  id_field : String := "id"
  icon : Option String := none
  page_size : Int := 25
deriving DecidableEq, Repr

/-- `ResourceAdmin(...)` construction including `__post_init__`
(`resource.py`, lines 52-86): each check raises in source order; a raise
means no instance exists. -/
def mkResourceAdmin (name display_name : String) (list_columns : List ColumnConfig)
    (form_fields : List FieldConfig) (id_field : String) (icon : Option String)
    (page_size : Int) : Except ResourceError ResourceAdmin :=
  if !(slugOk name) then Except.error ResourceError.invalidSlug
  else if list_columns.isEmpty then Except.error ResourceError.emptyColumnList
  else if form_fields.isEmpty then Except.error ResourceError.emptyFieldList
  else if !(list_columns.any (fun c => c.name = id_field) ||
            form_fields.any (fun f => f.name = id_field)) then
    Except.error ResourceError.missingIdField
  else
    match form_fields.find? (fun f => (f.field_type = FieldType.select : Bool) && !(choicesTruthy f.choices)) with
    | some _ => Except.error ResourceError.selectMissingChoices
    | none =>
        Except.ok { name := name, display_name := display_name,
                    list_columns := list_columns, form_fields := form_fields,
                    id_field := id_field, icon := icon, page_size := page_size }

/-! ## `app/application/bus/command_bus.py` and `query_bus.py`

Both files define the same class verbatim over their own class-level
registry.  Message types are abstract tags `τ` with decidable equality
(Python compares `type(message)` for identity); a handler takes the message
and the explicit contextual collaborators (`**kwargs`) and produces its
result, which `dispatch` returns as-is (so handler errors propagate
unchanged). -/
/-- Bus failure modes (`HandlerNotFoundError`, `DuplicateHandlerError`). -/
inductive BusError
  | handlerNotFound
  | duplicateHandler
deriving DecidableEq, Repr

namespace CommandBus

/-- `CommandBus.handler(command_type)` applied to a handler function:
raises `DuplicateHandlerError` when the exact type is already registered,
otherwise stores the handler (dict insert appends a fresh key at the end). -/
def register {τ Msg Ctx Res : Type} [DecidableEq τ]
    (reg : List (τ × (Msg → Ctx → Res))) (t : τ) (h : Msg → Ctx → Res) :
    Except BusError (List (τ × (Msg → Ctx → Res))) :=
  if (reg.lookup t).isSome then Except.error BusError.duplicateHandler
  else Except.ok (reg ++ [(t, h)])

/-- `CommandBus.dispatch(command, **kwargs)`: look up the handler for the
message's exact type; raise `HandlerNotFoundError` when absent, otherwise
invoke it with the message and the contextual collaborators. -/
def dispatch {τ Msg Ctx Res : Type} [DecidableEq τ]
    (reg : List (τ × (Msg → Ctx → Res))) (typeOf : Msg → τ) (m : Msg) (ctx : Ctx) :
    Except BusError Res :=
  match reg.lookup (typeOf m) with
  | none => Except.error BusError.handlerNotFound
  | some h => Except.ok (h m ctx)

end CommandBus

namespace QueryBus

/-- `QueryBus.handler(query_type)` applied to a handler function (verbatim
duplicate of the command bus over an independent registry). -/
def register {τ Msg Ctx Res : Type} [DecidableEq τ]
    (reg : List (τ × (Msg → Ctx → Res))) (t : τ) (h : Msg → Ctx → Res) :
    Except BusError (List (τ × (Msg → Ctx → Res))) :=
  if (reg.lookup t).isSome then Except.error BusError.duplicateHandler
  else Except.ok (reg ++ [(t, h)])

/-- `QueryBus.dispatch(query, **kwargs)`. -/
def dispatch {τ Msg Ctx Res : Type} [DecidableEq τ]
    (reg : List (τ × (Msg → Ctx → Res))) (typeOf : Msg → τ) (m : Msg) (ctx : Ctx) :
    Except BusError Res :=
  match reg.lookup (typeOf m) with
  | none => Except.error BusError.handlerNotFound
  | some h => Except.ok (h m ctx)

end QueryBus

/-! ## `app/admin/views/resource_create.py` / `resource_edit.py` /
`resource_delete.py`: the POST submit handlers

Each handler is embedded as a pure function of the request-independent
collaborators it consults: whether `require_admin` succeeded, whether
`site.get_resource` finds the resource, the session CSRF token, the parsed
form (`raw_data`), and the outcome of the single DAO call
(`Except String Unit`, the error carrying `str(exc)`).  The rendered
template is abstracted to its constructor and the data passed to it; the
session flash written by `set_flash` is recorded alongside, and `daoCalled`
records whether the DAO method was invoked on this request. -/
/-- Abstracted response of a submit handler. -/
inductive AdminResponse
  /-- `require_admin` returned a `RedirectResponse` to the login page. -/
  | redirectLogin
  /-- `admin/404.html` rendered with the given message. -/
  | notFoundPage (message : String)
  /-- `admin/form.html` re-rendered with the raw data and per-field errors. -/
  | formPage (form_data : List (String × String)) (errors : List (String × String))
  /-- `RedirectResponse(url, 303)`. -/
  | redirect (url : String)
  /-- An exception escaped the handler (server error). -/
  | serverError
deriving DecidableEq, Repr

/-- What a submit handler did: the response, the flash written into the
session (if any), and whether the resource's DAO method was invoked. -/
structure HandlerOutcome where
  response : AdminResponse
  flash : Option (String × String)
  daoCalled : Bool
deriving DecidableEq, Repr

/-- The request-scoped inputs a submit handler reads. -/
structure SubmitRequest where
  /-- `require_admin` resolved an admin user (otherwise it redirects). -/
  isAuthenticated : Bool
  /-- `site.get_resource(resource_name)` found the resource. -/
  resourceExists : Bool
  /-- `request.session.get("_csrf_token")`. -/
  sessionCsrf : Option String
  /-- `raw_data = {key: str(form[key]) for key in form}`. -/
  form : List (String × String)
deriving Repr

/-- `resource_create_submit` (`resource_create.py`, lines 101-156):
authenticate, resolve resource, validate the form, coerce
(`_coerce_form_data`, whose `ValueError` escapes the handler), then
`dao.create` inside `try`; the `except` branch flashes
`f"Error creating record: {exc}"`.  Note: no CSRF check appears anywhere
on this path. -/
def resource_create_submit (sitePre resource_name : String) (req : SubmitRequest)
    (fields : List FieldConfig) (dao : Except String Unit) : HandlerOutcome :=
  if !req.isAuthenticated then
    { response := AdminResponse.redirectLogin, flash := none, daoCalled := false }
  else if !req.resourceExists then
    { response := AdminResponse.notFoundPage ("Resource '" ++ resource_name ++ "' not found.")
      flash := none, daoCalled := false }
  else
    let raw_data := req.form
    let errors := under_validate_form fields raw_data
    if !errors.isEmpty then
      { response := AdminResponse.formPage raw_data errors, flash := none, daoCalled := false }
    else
      match under_coerce_form_data fields raw_data with
      | none => { response := AdminResponse.serverError, flash := none, daoCalled := false }
      | some _ =>
          match dao with
          | Except.ok _ =>
              { response := AdminResponse.redirect (sitePre ++ "/" ++ resource_name ++ "/")
                flash := some ("success", "Record created."), daoCalled := true }
          | Except.error exc =>
              { response := AdminResponse.formPage raw_data []
                flash := some ("error", "Error creating record: " ++ exc), daoCalled := true }

/-- `resource_edit_submit` (`resource_edit.py`, lines 79-152): authenticate,
resolve resource, validate CSRF (`raw_data.get("csrf_token")`), validate the
form, coerce (`forms.coerce_form_data`), then `dao.update` inside `try`; the
`except` branch logs and flashes the generic
`"An error occurred while updating the record."`. -/
def resource_edit_submit (sitePre resource_name record_id : String)
    (req : SubmitRequest) (fields : List FieldConfig) (dao : Except String Unit) :
    HandlerOutcome :=
  if !req.isAuthenticated then
    { response := AdminResponse.redirectLogin, flash := none, daoCalled := false }
  else if !req.resourceExists then
    { response := AdminResponse.notFoundPage ("Resource '" ++ resource_name ++ "' not found.")
      flash := none, daoCalled := false }
  else
    let raw_data := req.form
    if !(validate_csrf req.sessionCsrf (dictGet? raw_data "csrf_token")) then
      { response := AdminResponse.redirect
          (sitePre ++ "/" ++ resource_name ++ "/" ++ record_id ++ "/edit")
        flash := some ("error", "Invalid or missing CSRF token."), daoCalled := false }
    else
      let errors := validate_form fields raw_data
      if !errors.isEmpty then
        { response := AdminResponse.formPage raw_data errors, flash := none, daoCalled := false }
      else
        match coerce_form_data fields raw_data with
        | none => { response := AdminResponse.serverError, flash := none, daoCalled := false }
        | some _ =>
            match dao with
            | Except.ok _ =>
                { response := AdminResponse.redirect
                    (sitePre ++ "/" ++ resource_name ++ "/" ++ record_id)
                  flash := some ("success", "Record updated."), daoCalled := true }
            | Except.error _ =>
                { response := AdminResponse.formPage raw_data []
                  flash := some ("error", "An error occurred while updating the record.")
                  daoCalled := true }

/-- `resource_delete_submit` (`resource_delete.py`, lines 68-103):
authenticate, resolve resource (flash + redirect home when absent), validate
CSRF (`str(form.get("csrf_token", ""))`), then `dao.delete` inside `try`;
the `except` branch logs and flashes the generic
`"An error occurred while deleting the record."`. -/
def resource_delete_submit (sitePre resource_name record_id : String)
    (req : SubmitRequest) (dao : Except String Unit) : HandlerOutcome :=
  if !req.isAuthenticated then
    { response := AdminResponse.redirectLogin, flash := none, daoCalled := false }
  else if !req.resourceExists then
    { response := AdminResponse.redirect (sitePre ++ "/")
      flash := some ("error", "Resource not found."), daoCalled := false }
  else
    let submitted_token := (dictGet? req.form "csrf_token").getD ""
    if !(validate_csrf req.sessionCsrf (some submitted_token)) then
      { response := AdminResponse.redirect
          (sitePre ++ "/" ++ resource_name ++ "/" ++ record_id ++ "/delete")
        flash := some ("error", "Invalid or missing CSRF token."), daoCalled := false }
    else
      match dao with
      | Except.ok _ =>
          { response := AdminResponse.redirect (sitePre ++ "/" ++ resource_name ++ "/")
            flash := some ("success", "Record deleted."), daoCalled := true }
      | Except.error _ =>
          { response := AdminResponse.redirect
              (sitePre ++ "/" ++ resource_name ++ "/" ++ record_id)
            flash := some ("error", "An error occurred while deleting the record.")
            daoCalled := true }

/-! ## Concrete configurations used in closed checks -/
/-- A plain required text field. -/
def nameField : FieldConfig := { name := "name", label := "Name", field_type := FieldType.text }

/-- A required number field. -/
def numberField : FieldConfig := { name := "n", label := "N", field_type := FieldType.number }

/-- An `id` list column. -/
def idCol : ColumnConfig := { name := "id", label := "ID" }

/-- An authenticated request on an existing resource whose form carries no
`csrf_token` at all (the session does hold a token). -/
def csrfMissingReq : SubmitRequest :=
  { isAuthenticated := true, resourceExists := true, sessionCsrf := some "T"
    form := [("name", "Alice")] }

/-- An authenticated request with a matching `csrf_token`. -/
def csrfOkReq : SubmitRequest :=
  { isAuthenticated := true, resourceExists := true, sessionCsrf := some "T"
    form := [("csrf_token", "T"), ("name", "Alice")] }

/-- A valid `ResourceAdmin` instance used in concrete checks. -/
def usersAdmin : ResourceAdmin := { name := "users", display_name := "Users", list_columns := [idCol], form_fields := [nameField], id_field := "id", icon := none, page_size := 25 }

/-- A concrete handler for the bus witness. -/
def addHandler : Nat → Nat → Nat := fun m c => m + c

/-! ## C5: characterisation of `validate_form` -/
/-- Record one optional per-field error into the accumulated error dict. -/
def applyFieldError (errors : List (String × String)) (name : String) :
    Option String → List (String × String)
  | Option.none => errors
  | some msg => dictInsert errors name msg

/-- The per-field check exactly as the claim words it: (a) required +
non-boolean + blank → required error, skipping further checks; (b) number +
non-blank not parsing as a number → number error; (c) select + non-blank
value not among the configured choice values → choice error; readonly
fields never checked, first matching check wins. -/
def claimedFieldError (data : List (String × String)) (f : FieldConfig) :
    Option String :=
  if f.readonly then Option.none
  else
    let value := pyStrip ((dictGet? data f.name).getD "")
    if f.required && !(f.field_type = FieldType.boolean : Bool) && (value = "" : Bool) then
      some "This field is required."
    else if !(value = "" : Bool) && (f.field_type = FieldType.number : Bool)
        && !(pyFloatOk value) then
      some "Must be a number."
    else if !(value = "" : Bool) && (f.field_type = FieldType.select : Bool)
        && !((choiceValues f.choices).contains value) then
      some "Invalid choice."
    else Option.none

/-- `validate_form` as the claim describes it. -/
def validateFormClaimed (fields : List FieldConfig)
    (data : List (String × String)) : List (String × String) :=
  fields.foldl (fun errors f => applyFieldError errors f.name (claimedFieldError data f)) []

/-- The per-field check as amended: identical to `claimedFieldError` except
that the select check fires only when the field actually has a nonempty
configured choices list (the code guards on `field.choices` truthiness). -/
def amendedFieldError (data : List (String × String)) (f : FieldConfig) :
    Option String :=
  if f.readonly then Option.none
  else
    let value := pyStrip ((dictGet? data f.name).getD "")
    if f.required && !(f.field_type = FieldType.boolean : Bool) && (value = "" : Bool) then
      some "This field is required."
    else if !(value = "" : Bool) && (f.field_type = FieldType.number : Bool)
        && !(pyFloatOk value) then
      some "Must be a number."
    else if !(value = "" : Bool) && (f.field_type = FieldType.select : Bool)
        && choicesTruthy f.choices && !((choiceValues f.choices).contains value) then
      some "Invalid choice."
    else Option.none

/-- `validate_form` as amended. -/
def validateFormAmended (fields : List FieldConfig)
    (data : List (String × String)) : List (String × String) :=
  fields.foldl (fun errors f => applyFieldError errors f.name (amendedFieldError data f)) []

/-! ## C4: characterisation of coercion -/
/-- Whether the raw string carries a decimal or exponent marker. -/
def hasNumericMarker (v : String) : Bool :=
  v.data.any (fun c => c = '.' || c = 'e' || c = 'E')

/-- Whether the raw string is (after strip and sign) one of `float`'s
special words `inf`/`infinity`/`nan`. -/
def isSpecialFloatStr (v : String) : Bool :=
  pyFloatSpecialWord (dropSign (pyStripList v.data))

/-- Relation between an original form entry and the same entry with
whitespace padded around its value (key unchanged). -/
def wsPadPair (p q : String × String) : Prop :=
  q.1 = p.1 ∧ ∃ w1 w2 : String, w1.data.all isPySpace = true ∧
    w2.data.all isPySpace = true ∧ q.2 = w1 ++ p.2 ++ w2

/-- The value `coerce_form_data` computes for one field (`none` models the
loop raising on that field). -/
def coerceFieldValue (raw : List (String × String)) (f : FieldConfig) :
    Option PyValue :=
  let value := pyStrip ((dictGet? raw f.name).getD "")
  if f.field_type = FieldType.boolean then some (PyValue.bool (hasKey raw f.name))
  else if (f.field_type = FieldType.number : Bool) && !(value = "" : Bool) then
    match pyIntParse value with
    | some n => some (PyValue.int n)
    | Option.none =>
        if pyFloatOk value then some (PyValue.float value) else Option.none
  else if !(value = "" : Bool) then some (PyValue.str value)
  else some (if f.required then PyValue.str "" else PyValue.none)

/-- Every string value in the dict has no surrounding whitespace. -/
def strippedStrVals (m : List (String × PyValue)) : Prop :=
  ∀ kv ∈ m, ∀ s, kv.2 = PyValue.str s → pyStrip s = s

example : pyIntParse "  42 " = some 42 := by decide

example : pyIntParse "-42" = some (-42) := by decide

example : pyIntParse "1e3" = none := by decide

example : pyIntParse "1_000" = some 1000 := by decide

example : pyIntParse "1_" = none := by decide

example : pyIntParse "1.5" = none := by decide

example : pyFloatOk "1e3" = true := by decide

example : pyFloatOk "1.5" = true := by decide

example : pyFloatOk "inf" = true := by decide

example : pyFloatOk "-1.e5" = true := by decide

example : pyFloatOk ".5e-2" = true := by decide

example : pyFloatOk "abc" = false := by decide

example : pyFloatOk "1e" = false := by decide

example : pyFloatOk "" = false := by decide

example : pyStrip "  a b " = "a b" := by decide

example :
    validate_form [{ name := "a", label := "A", field_type := FieldType.text }] [] =
      [("a", "This field is required.")] := by decide

example :
    coerce_form_data [{ name := "a", label := "A", field_type := FieldType.text }] [] =
      some [("a", PyValue.str "")] := by decide

example :
    coerce_form_data [{ name := "n", label := "N", field_type := FieldType.number }]
      [("n", "1e3")] = some [("n", PyValue.float "1e3")] := by decide

example :
    under_coerce_form_data [{ name := "n", label := "N", field_type := FieldType.number }]
      [("n", "1e3")] = Option.none := by decide

example :
    under_coerce_form_data [{ name := "n", label := "N", field_type := FieldType.number }]
      [("n", "1.5")] = some [("n", PyValue.float "1.5")] := by decide

example :
    coerce_form_data [{ name := "b", label := "B", field_type := FieldType.boolean }]
      [("b", "off")] = some [("b", PyValue.bool true)] := by decide

example : validate_form [selField] [("s", "z")] = [("s", "Invalid choice.")] := by decide

example : validate_form [selField] [("s", "x")] = [] := by decide

example : validate_form [selFieldNoChoices] [("s", "z")] = [] := by decide

/-! ## C6: CSRF validation -/
/-- C6: `validate_csrf` returns false when the session holds no (truthy)
token or no (truthy) token was submitted — Python truthiness is the code's
notion of absence, and the delete call site encodes a missing submission as
`""` — and otherwise returns true exactly when the submitted token equals
the session token; in particular `validate(T, T)` is true,
`validate(T, T ++ "x")` is false, and `validate(no token, anything)` is
false. -/
theorem C6_validate_csrf_correct :
    (∀ st sub : Option String, (truthyStr st = false ∨ truthyStr sub = false) →
      validate_csrf st sub = false) ∧
    (∀ s t : String, s ≠ "" → t ≠ "" →
      (validate_csrf (some s) (some t) = true ↔ s = t)) ∧
    (∀ T : String, T ≠ "" →
      validate_csrf (some T) (some T) = true ∧
      validate_csrf (some T) (some (T ++ "x")) = false) ∧
    (∀ u : Option String, validate_csrf none u = false) := by
  refine ⟨?_, ?_, ?_, ?_⟩
  · intro st sub h
    rcases h with h | h <;> simp [validate_csrf, h]
  · intro s t hs ht
    simp [validate_csrf, truthyStr, hs, ht]
  · intro T hT
    have hxlen : ("x" : String).length = 1 := rfl
    have helen : ("" : String).length = 0 := rfl
    have hne : T ++ "x" ≠ T := by
      intro h
      have h2 := congrArg String.length h
      rw [String.length_append, hxlen] at h2
      omega
    have hTx : T ++ "x" ≠ "" := by
      intro h
      have h2 := congrArg String.length h
      rw [String.length_append, hxlen, helen] at h2
      omega
    refine ⟨by simp [validate_csrf, truthyStr, hT], ?_⟩
    simp only [validate_csrf, truthyStr, Option.getD_some]
    simp [hT, hTx]
    intro h
    exact absurd h.symm hne
  · intro u
    simp [validate_csrf, truthyStr]

/-- Witness for C6 at the concrete token `"tok"`. -/
theorem C6_validate_csrf_correct_witness :
    ("tok" : String) ≠ "" ∧
    (validate_csrf (some "tok") (some "tok") = true ∧
      validate_csrf (some "tok") (some ("tok" ++ "x")) = false) :=
  ⟨by decide, C6_validate_csrf_correct.2.2.1 "tok" (by decide)⟩

/-! ## C7: pagination -/
/-- For a positive divisor, integer floor of the rational quotient is
Euclidean division. -/
theorem floor_ratCast_div (n b : ℤ) (hb : 0 < b) : ⌊(n : ℚ) / (b : ℚ)⌋ = n / b := by
  have hbn : ((b.toNat : ℕ) : ℤ) = b := Int.toNat_of_nonneg hb.le
  have hcast : ((b.toNat : ℕ) : ℚ) = (b : ℚ) := by exact_mod_cast congrArg Int.cast hbn
  rw [← hcast, Rat.floor_intCast_div_natCast, hbn]

/-- `ceilDivInt` computes the mathematical ceiling of the rational
quotient. -/
theorem ceilDivInt_eq_ceil (a b : ℤ) (hb : 0 < b) :
    ceilDivInt a b = ⌈(a : ℚ) / (b : ℚ)⌉ := by
  have h1 : ⌈(a : ℚ) / (b : ℚ)⌉ = -⌊-((a : ℚ) / (b : ℚ))⌋ := by
    rw [← Int.ceil_neg, neg_neg]
  have h2 : -((a : ℚ) / (b : ℚ)) = ((-a : ℤ) : ℚ) / (b : ℚ) := by push_cast; ring
  rw [h1, h2, floor_ratCast_div (-a) b hb]
  rfl

/-- `float(2^53 + 1)` rounds down to `2^53` (ties-to-even). -/
theorem roundNatToB64_pow53_succ : roundNatToB64 (2 ^ 53 + 1) = 2 ^ 53 := by
  have hlog : Nat.log2 (2 ^ 53 + 1) = 53 := by
    rw [Nat.log2_eq_log_two]
    exact Nat.log_eq_of_pow_le_of_lt_pow (by norm_num) (by norm_num)
  unfold roundNatToB64
  rw [if_neg (by norm_num), hlog]
  decide

/-- C7 (code bug): at `page_size = 1`, `total_count = 2^53 + 1` the claim's
exact formula — the exact-ceiling embedding `compute_pagination` — yields
`2^53 + 1` total pages, but the source computes
`math.ceil(total_count / page_size)` over float division: the dividend
already rounds to `2^53` (ties-to-even), and the ceiling of that quotient
is `2^53`, one page short of the claim.  The conjuncts exhibit the exact
value, the rounding of the dividend, and the ceiling of the rounded
quotient. -/
theorem C7_float_division_diverges :
    (compute_pagination 1 1 ((2 : Int) ^ 53 + 1)).total_pages = 2 ^ 53 + 1 ∧
    roundNatToB64 (2 ^ 53 + 1) = 2 ^ 53 ∧
    max 1 (ceilDivInt ((2 : Int) ^ 53) 1) = 2 ^ 53 ∧
    ((2 : Int) ^ 53 ≠ 2 ^ 53 + 1) :=
  ⟨by decide, roundNatToB64_pow53_succ, by decide, by decide⟩

/-! ## C8: `ResourceAdmin` construction invariants -/
/-- C8 (amended): `ResourceAdmin` construction fails synchronously exactly
when the configuration is invalid — the name fails `_SLUG_RE.match`, i.e.
it is not a lowercase alphanumeric-with-hyphens slug optionally followed by
one trailing newline (which Python's `$` anchor tolerates, so
`name = "users\n"` is accepted — see the counterexample), `list_columns` is
empty, `form_fields` is empty, `id_field` names no column or field, or a
select field has no choices — and succeeds otherwise; a successfully
constructed instance carries exactly the validated configuration. -/
theorem C8_resource_admin_construction (name display_name : String)
    (cols : List ColumnConfig) (fields : List FieldConfig) (id_field : String)
    (icon : Option String) (page_size : Int) :
    ((mkResourceAdmin name display_name cols fields id_field icon page_size).isOk = true ↔
      (slugOk name = true ∧ cols ≠ [] ∧ fields ≠ [] ∧
        (cols.any (fun c => c.name = id_field) ||
          fields.any (fun f => f.name = id_field)) = true ∧
        ∀ f ∈ fields, f.field_type = FieldType.select → choicesTruthy f.choices = true)) ∧
    (∀ r, mkResourceAdmin name display_name cols fields id_field icon page_size =
        Except.ok r →
      r.name = name ∧ r.list_columns = cols ∧ r.form_fields = fields ∧
        r.id_field = id_field ∧
        ∀ f ∈ r.form_fields, f.field_type = FieldType.select →
          choicesTruthy f.choices = true) := by
  have hfindAll : ∀ hf : fields.find?
        (fun f => (f.field_type = FieldType.select : Bool) && !(choicesTruthy f.choices)) = none,
      ∀ f ∈ fields, f.field_type = FieldType.select → choicesTruthy f.choices = true := by
    intro hf f hmem hsel
    rw [List.find?_eq_none] at hf
    have := hf f hmem
    simp [hsel] at this
    exact this
  constructor
  · unfold mkResourceAdmin
    rcases hfind : fields.find?
        (fun f => (f.field_type = FieldType.select : Bool) && !(choicesTruthy f.choices)) with _ | f
    · have hall := hfindAll hfind
      simp only [hfind]
      split_ifs with h1 h2 h3 h4 <;>
        simp_all [Except.toBool, List.isEmpty_iff]
      by_cases hc : ∀ x ∈ cols, ¬x.name = id_field
      · exact Or.inr (h4 hc)
      · push_neg at hc
        exact Or.inl hc
    · have hmem := List.mem_of_find?_eq_some hfind
      have hprop := List.find?_some hfind
      simp only [Bool.and_eq_true, decide_eq_true_eq, Bool.not_eq_eq_eq_not,
        Bool.not_true] at hprop
      have hnot : ¬ (slugOk name = true ∧ cols ≠ [] ∧ fields ≠ [] ∧
          (cols.any (fun c => c.name = id_field) ||
            fields.any (fun f => f.name = id_field)) = true ∧
          ∀ f ∈ fields, f.field_type = FieldType.select →
            choicesTruthy f.choices = true) := by
        rintro ⟨-, -, -, -, hall⟩
        have := hall f hmem hprop.1
        rw [this] at hprop
        cases hprop.2
      simp only [hfind]
      split_ifs with h1 h2 h3 h4 <;>
        simp only [Except.toBool] <;>
        exact ⟨fun h => Bool.noConfusion h, fun h => absurd h hnot⟩
  · intro r hr
    unfold mkResourceAdmin at hr
    rcases hfind : fields.find?
        (fun f => (f.field_type = FieldType.select : Bool) && !(choicesTruthy f.choices)) with _ | f
    · rw [hfind] at hr
      split_ifs at hr
      cases hr
      exact ⟨rfl, rfl, rfl, rfl, hfindAll hfind⟩
    · rw [hfind] at hr
      split_ifs at hr

/-- Witness for C8: a valid configuration constructs successfully and the
instance carries it. -/
theorem C8_resource_admin_construction_witness :
    (mkResourceAdmin "users" "Users" [idCol] [nameField] "id" none 25 =
      Except.ok usersAdmin) ∧
    (usersAdmin.name = "users" ∧ usersAdmin.list_columns = [idCol] ∧
      usersAdmin.form_fields = [nameField] ∧ usersAdmin.id_field = "id" ∧
      ∀ f ∈ usersAdmin.form_fields, f.field_type = FieldType.select →
        choicesTruthy f.choices = true) :=
  ⟨by rfl, (C8_resource_admin_construction "users" "Users" [idCol] [nameField]
      "id" none 25).2 usersAdmin (by rfl)⟩

/-- C8 counterexample: the claim as stated — construction fails whenever
the name is not a lowercase alphanumeric-with-hyphens slug — is false:
Python's `$` anchor also matches just before one trailing newline, so
`_SLUG_RE.match("users\n")` is truthy and
`ResourceAdmin(name = "users\n", ...)` constructs successfully, although
`"users\n"` contains a character that is neither lowercase alphanumeric
nor a hyphen. -/
theorem C8_claim_counterexample :
    (mkResourceAdmin "users\n" "Users" [idCol] [nameField] "id" none 25).isOk = true ∧
    ("users\n").data.all (fun c => c.isLower || c.isDigit || c = '-') = false := by
  refine ⟨by rfl, by decide⟩

example : slugOk "users" = true := by decide

example : slugOk "user-roles2" = true := by decide

example : slugOk "Users" = false := by decide

example : slugOk "a--b" = false := by decide

example : slugOk "" = false := by decide

example : slugOk "-a" = false := by decide

example : slugOk "users\n" = true := by decide

example : slugOk "users\n\n" = false := by decide

example : slugOk "\n" = false := by decide

example : slugOk "use\nrs" = false := by decide

/-! ## C9: command and query bus registration and dispatch -/
/-- C9: for each bus (command and query, over independent registries),
registering a handler for a message type that already has one fails with
`DuplicateHandlerError` (the raise happens before any mutation, so the
registry is unchanged); registering for a fresh type stores exactly that
handler; dispatching a message whose exact type has no handler fails with
`HandlerNotFoundError`; otherwise dispatch invokes the unique registered
handler with the message and the supplied contextual collaborators and
returns that handler's result (errors inside the result propagate
unchanged, as the result is returned as-is). -/
theorem C9_bus_register_dispatch (τ Msg Ctx Res : Type) [DecidableEq τ]
    (reg : List (τ × (Msg → Ctx → Res))) (t : τ) (h : Msg → Ctx → Res)
    (typeOf : Msg → τ) (m : Msg) (ctx : Ctx) :
    ((reg.lookup t).isSome = true →
      CommandBus.register reg t h = Except.error BusError.duplicateHandler) ∧
    (reg.lookup t = none →
      CommandBus.register reg t h = Except.ok (reg ++ [(t, h)]) ∧
        (reg ++ [(t, h)]).lookup t = some h) ∧
    (reg.lookup (typeOf m) = none →
      CommandBus.dispatch reg typeOf m ctx = Except.error BusError.handlerNotFound) ∧
    (∀ hd, reg.lookup (typeOf m) = some hd →
      CommandBus.dispatch reg typeOf m ctx = Except.ok (hd m ctx)) ∧
    ((reg.lookup t).isSome = true →
      QueryBus.register reg t h = Except.error BusError.duplicateHandler) ∧
    (reg.lookup t = none →
      QueryBus.register reg t h = Except.ok (reg ++ [(t, h)]) ∧
        (reg ++ [(t, h)]).lookup t = some h) ∧
    (reg.lookup (typeOf m) = none →
      QueryBus.dispatch reg typeOf m ctx = Except.error BusError.handlerNotFound) ∧
    (∀ hd, reg.lookup (typeOf m) = some hd →
      QueryBus.dispatch reg typeOf m ctx = Except.ok (hd m ctx)) := by
  have hlook : reg.lookup t = none → (reg ++ [(t, h)]).lookup t = some h := by
    induction reg with
    | nil => intro _; simp [List.lookup]
    | cons p rest ih =>
        intro hnone
        rcases p with ⟨k, v⟩
        by_cases hk : (t == k) = true
        · simp only [List.lookup, hk] at hnone
          cases hnone
        · have hk' : (t == k) = false := by simpa using hk
          simp only [List.cons_append, List.lookup, hk'] at hnone ⊢
          exact ih hnone
  refine ⟨?_, ?_, ?_, ?_, ?_, ?_, ?_, ?_⟩
  · intro hs
    simp [CommandBus.register, hs]
  · intro hn
    refine ⟨by simp [CommandBus.register, hn], hlook hn⟩
  · intro hn
    simp [CommandBus.dispatch, hn]
  · intro hd hsome
    simp [CommandBus.dispatch, hsome]
  · intro hs
    simp [QueryBus.register, hs]
  · intro hn
    refine ⟨by simp [QueryBus.register, hn], hlook hn⟩
  · intro hn
    simp [QueryBus.dispatch, hn]
  · intro hd hsome
    simp [QueryBus.dispatch, hsome]

/-- Witness for C9: on the registry `[(1, addHandler)]`, dispatching a
message of type `1` invokes `addHandler` on the message and context. -/
theorem C9_bus_register_dispatch_witness :
    ([((1 : Nat), addHandler)].lookup 1 = some addHandler) ∧
    CommandBus.dispatch [((1 : Nat), addHandler)] (fun m => m) 1 10 =
      Except.ok (addHandler 1 10) :=
  ⟨rfl, (C9_bus_register_dispatch Nat Nat Nat Nat [((1 : Nat), addHandler)] 1
      addHandler (fun m => m) 1 10).2.2.2.1 addHandler rfl⟩

/-! ## C1: CSRF gating of the state-changing handlers (code bug)

The spec requires every state-changing POST handler to validate the CSRF
token and reject the request before any DAO call.  `resource_delete_submit`
and `resource_edit_submit` do; `resource_create_submit` never calls
`validate_csrf`, so a request with no (or a wrong) CSRF token reaches
`dao.create` and succeeds. -/
/-- C1: on an authenticated create submission whose form carries no
`csrf_token` (worth rejecting: the session does hold the token `"T"`),
`resource_create_submit` invokes the DAO and reports success, even though
`validate_csrf` rejects that submission; on the same request the delete and
edit handlers reject with a flash and never call the DAO. -/
theorem C1_create_submit_skips_csrf :
    validate_csrf csrfMissingReq.sessionCsrf (dictGet? csrfMissingReq.form "csrf_token") = false ∧
    (resource_create_submit "/admin" "users" csrfMissingReq [nameField]
      (Except.ok ())).daoCalled = true ∧
    (resource_create_submit "/admin" "users" csrfMissingReq [nameField]
      (Except.ok ())).flash = some ("success", "Record created.") ∧
    (resource_delete_submit "/admin" "users" "1" csrfMissingReq
      (Except.ok ())).daoCalled = false ∧
    (resource_delete_submit "/admin" "users" "1" csrfMissingReq (Except.ok ())).flash =
      some ("error", "Invalid or missing CSRF token.") ∧
    (resource_edit_submit "/admin" "users" "1" csrfMissingReq [nameField]
      (Except.ok ())).daoCalled = false ∧
    (resource_edit_submit "/admin" "users" "1" csrfMissingReq [nameField]
      (Except.ok ())).flash = some ("error", "Invalid or missing CSRF token.") := by
  decide

/-! ## C2: generic DAO error surfacing (code bug)

The spec requires DAO exceptions during create/update/delete to surface as
a generic message with no internal exception text.  The edit and delete
handlers comply; `resource_create_submit` interpolates `str(exc)` into its
flash message. -/
/-- C2: with a valid CSRF token and valid form, two distinct `dao.create`
exceptions (`"X"` and `"Y"`) produce distinct create responses whose flash
messages embed the exception text, while the edit and delete handlers
produce identical generic outcomes for the same two exceptions. -/
theorem C2_create_submit_leaks_exception_text :
    (resource_create_submit "/admin" "users" csrfOkReq [nameField]
      (Except.error "X")).flash = some ("error", "Error creating record: X") ∧
    (resource_create_submit "/admin" "users" csrfOkReq [nameField]
      (Except.error "Y")).flash = some ("error", "Error creating record: Y") ∧
    resource_create_submit "/admin" "users" csrfOkReq [nameField] (Except.error "X") ≠
      resource_create_submit "/admin" "users" csrfOkReq [nameField] (Except.error "Y") ∧
    resource_edit_submit "/admin" "users" "1" csrfOkReq [nameField] (Except.error "X") =
      resource_edit_submit "/admin" "users" "1" csrfOkReq [nameField] (Except.error "Y") ∧
    resource_delete_submit "/admin" "users" "1" csrfOkReq (Except.error "X") =
      resource_delete_submit "/admin" "users" "1" csrfOkReq (Except.error "Y") := by
  decide

/-- One step of `validate_form`'s loop records exactly the amended
per-field error. -/
theorem validateAux_cons_eq (data : List (String × String)) (f : FieldConfig)
    (rest : List FieldConfig) (errors : List (String × String)) :
    validateAux data (f :: rest) errors =
      validateAux data rest (applyFieldError errors f.name (amendedFieldError data f)) := by
  show (if f.readonly then validateAux data rest errors else _) = _
  unfold amendedFieldError
  by_cases hro : f.readonly = true
  · simp [hro, applyFieldError]
  · simp only [hro, Bool.false_eq_true, if_false, ite_false]
    split_ifs with h1 h2 h3 <;> simp_all [applyFieldError]

/-- C5 (amended): `validate_form` checks each non-readonly field in the
fixed order required → number → select, records at most one error per
field (first matching check wins), never checks readonly fields, and the
select check fires only for fields with a nonempty configured choices
list; an empty returned mapping means no field failed any check. -/
theorem C5_validate_form_characterisation (fields : List FieldConfig)
    (data : List (String × String)) :
    validate_form fields data = validateFormAmended fields data := by
  show validateAux data fields [] = fields.foldl
    (fun errors f => applyFieldError errors f.name (amendedFieldError data f)) []
  generalize [] = errors
  induction fields generalizing errors with
  | nil => rfl
  | cons f rest ih =>
      rw [validateAux_cons_eq, List.foldl_cons, ih]

/-- C5 counterexample: the claim as stated (select error whenever a
non-blank value is not among the configured choice values) fails when the
select field has no configured choices: the code skips the check and
returns no errors, while the claim's reading yields an invalid-choice
error. -/
theorem C5_claim_counterexample :
    validate_form [selFieldNoChoices] [("s", "z")] = [] ∧
    validateFormClaimed [selFieldNoChoices] [("s", "z")] =
      [("s", "Invalid choice.")] ∧
    (choiceValues selFieldNoChoices.choices).contains "z" = false := by
  decide

/-! ## C3: `validate_form` empty versus `coerce_form_data` running -/
/-- `dictInsert` never produces the empty dict. -/
theorem dictInsert_ne_nil {α : Type} (m : List (String × α)) (k : String) (v : α) :
    dictInsert m k v ≠ [] := by
  cases m with
  | nil => simp [dictInsert]
  | cons p rest =>
      rcases p with ⟨k', v'⟩
      unfold dictInsert
      split_ifs <;> simp

/-- If the validation loop ends with no errors, it started with none and
every field's (amended) per-field check passed. -/
theorem validateAux_eq_nil (data : List (String × String)) :
    ∀ (fields : List FieldConfig) (errors : List (String × String)),
      validateAux data fields errors = [] →
      errors = [] ∧ ∀ f ∈ fields, amendedFieldError data f = Option.none := by
  intro fields
  induction fields with
  | nil =>
      intro errors h
      exact ⟨h, by simp⟩
  | cons f rest ih =>
      intro errors h
      rw [validateAux_cons_eq] at h
      rcases ih _ h with ⟨happ, hrest⟩
      rcases he : amendedFieldError data f with _ | msg
      · rw [he] at happ
        refine ⟨happ, ?_⟩
        intro g hg
        rcases List.mem_cons.mp hg with rfl | hg
        · exact he
        · exact hrest g hg
      · rw [he] at happ
        exact absurd happ (dictInsert_ne_nil errors f.name msg)

/-- If every per-field check passes, the coercion loop cannot raise. -/
theorem coerceAux_isSome (raw : List (String × String)) :
    ∀ (fields : List FieldConfig),
      (∀ f ∈ fields, amendedFieldError raw f = Option.none) →
      ∀ result, (coerceAux raw fields result).isSome = true := by
  intro fields
  induction fields with
  | nil => intro _ result; rfl
  | cons f rest ih =>
      intro hall result
      have hf := hall f (by simp)
      have hrest : ∀ g ∈ rest, amendedFieldError raw g = Option.none := by
        intro g hg; exact hall g (by simp [hg])
      show (if f.readonly then coerceAux raw rest result else _).isSome = true
      by_cases hro : f.readonly = true
      · simp only [hro, if_true]
        exact ih hrest result
      · simp only [hro, Bool.false_eq_true, if_false]
        unfold amendedFieldError at hf
        simp only [hro, Bool.false_eq_true, if_false] at hf
        by_cases hb : f.field_type = FieldType.boolean
        · simp only [hb, if_true]
          exact ih hrest _
        · simp only [hb, if_false]
          by_cases hnum : (f.field_type = FieldType.number : Bool)
              && !(pyStrip ((dictGet? raw f.name).getD "") = "" : Bool)
          · rw [if_pos hnum]
            simp only [Bool.and_eq_true, decide_eq_true_eq, Bool.not_eq_eq_eq_not,
              Bool.not_true, decide_eq_false_iff_not] at hnum
            rcases hnum with ⟨hty, hval⟩
            have hfloat : pyFloatOk (pyStrip ((dictGet? raw f.name).getD "")) = true := by
              by_contra hflo
              have hflo' : pyFloatOk (pyStrip ((dictGet? raw f.name).getD "")) = false := by
                simpa using hflo
              simp [hty, hval, hflo'] at hf
            rcases hip : pyIntParse (pyStrip ((dictGet? raw f.name).getD "")) with _ | n
            · simp only [hip, hfloat, if_true]
              exact ih hrest _
            · simp only [hip]
              exact ih hrest _
          · rw [if_neg hnum]
            split_ifs <;> exact ih hrest _

/-- C3 (amended): if `validate_form` returns an empty mapping then
`coerce_form_data` runs to completion without raising.  (The converse of
the claim's iff fails: see the counterexample.) -/
theorem C3_validate_empty_implies_coerce_runs (fields : List FieldConfig)
    (data : List (String × String)) (h : validate_form fields data = []) :
    (coerce_form_data fields data).isSome = true := by
  have hall := (validateAux_eq_nil data fields [] h).2
  exact coerceAux_isSome data fields hall []

/-- C3 counterexample: a blank required text field makes `validate_form`
return a non-empty error mapping while `coerce_form_data` runs to
completion (returning the explicit empty string), so the claimed "empty
iff no exception" equivalence is false right-to-left. -/
theorem C3_claim_counterexample :
    validate_form [nameField] [] = [("name", "This field is required.")] ∧
    coerce_form_data [nameField] [] = some [("name", PyValue.str "")] := by
  decide

/-- Witness for C3 on a valid submission. -/
theorem C3_validate_empty_implies_coerce_runs_witness :
    validate_form [nameField] [("name", "Alice")] = [] ∧
    (coerce_form_data [nameField] [("name", "Alice")]).isSome = true :=
  ⟨by decide, C3_validate_empty_implies_coerce_runs [nameField] [("name", "Alice")]
      (by decide)⟩

/-- Membership in a `dropWhile` result is membership in the list. -/
theorem mem_dropWhile {α : Type} (p : α → Bool) :
    ∀ (l : List α) (c : α), c ∈ l.dropWhile p → c ∈ l := by
  intro l
  induction l with
  | nil => intro c h; exact h
  | cons a rest ih =>
      intro c h
      by_cases ha : p a = true
      · simp only [List.dropWhile_cons, ha, if_true] at h
        exact List.mem_cons_of_mem a (ih c h)
      · simp only [List.dropWhile_cons, ha, if_false] at h
        exact h

/-- Membership in a stripped list is membership in the original. -/
theorem mem_pyStripList (l : List Char) (c : Char) (h : c ∈ pyStripList l) :
    c ∈ l := by
  unfold pyStripList at h
  rw [List.mem_reverse] at h
  have h2 := mem_dropWhile _ _ _ h
  rw [List.mem_reverse] at h2
  exact mem_dropWhile _ _ _ h2

/-- Membership after `dropSign` is membership before. -/
theorem mem_dropSign (l : List Char) (c : Char) (h : c ∈ dropSign l) : c ∈ l := by
  cases l with
  | nil => exact h
  | cons a rest =>
      rw [show dropSign (a :: rest) =
          if (a = '+' || a = '-' : Bool) then rest else a :: rest from rfl] at h
      split_ifs at h
      · exact List.mem_cons_of_mem a h
      · exact h

/-- `takeWhile` keeps the whole list when every element satisfies the
predicate. -/
theorem takeWhile_all {α : Type} (p : α → Bool) :
    ∀ l : List α, (∀ c ∈ l, p c = true) → l.takeWhile p = l := by
  intro l
  induction l with
  | nil => intro _; rfl
  | cons a rest ih =>
      intro h
      have hrest := ih (fun c hc => h c (by simp [hc]))
      simp [List.takeWhile_cons, h a (by simp), hrest]

/-- `dropWhile` drops the whole list when every element satisfies the
predicate. -/
theorem dropWhile_all {α : Type} (p : α → Bool) :
    ∀ l : List α, (∀ c ∈ l, p c = true) → l.dropWhile p = [] := by
  intro l
  induction l with
  | nil => intro _; rfl
  | cons a rest ih =>
      intro h
      have hrest := ih (fun c hc => h c (by simp [hc]))
      simp [List.dropWhile_cons, h a (by simp), hrest]

/-- A string with no decimal or exponent marker that `float` accepts, other
than the special words, is accepted by `int` as well. -/
theorem pyIntParse_of_unmarked (v : String) (hm : hasNumericMarker v = false)
    (hf : pyFloatOk v = true) (hsp : isSpecialFloatStr v = false) :
    (pyIntParse v).isSome = true := by
  have hv : ∀ c ∈ v.data, (c = '.' || c = 'e' || c = 'E') = false := by
    unfold hasNumericMarker at hm
    intro c hc
    rcases hcontra : (c = '.' || c = 'e' || c = 'E' : Bool) with _ | _
    · rfl
    · exfalso
      rw [List.any_eq_false] at hm
      exact hm c hc hcontra
  have hbodymem : ∀ c ∈ dropSign (pyStripList v.data),
      (c = '.' || c = 'e' || c = 'E') = false :=
    fun c hc => hv c (mem_pyStripList _ _ (mem_dropSign _ _ hc))
  have hexp : ∀ c ∈ dropSign (pyStripList v.data), (!(isExpChar c)) = true := by
    intro c hc
    have := hbodymem c hc
    unfold isExpChar
    rcases hdot : (c = '.' : Bool) with _ | _ <;>
      rcases he1 : (c = 'e' : Bool) with _ | _ <;>
      rcases he2 : (c = 'E' : Bool) with _ | _ <;>
      simp_all
  have hdot : ∀ c ∈ dropSign (pyStripList v.data), (!(c = '.' : Bool)) = true := by
    intro c hc
    have := hbodymem c hc
    rcases hd : (c = '.' : Bool) with _ | _ <;> simp_all
  unfold isSpecialFloatStr at hsp
  have hmant : mantissaOk (dropSign (pyStripList v.data)) =
      digitsUS (dropSign (pyStripList v.data)) := by
    unfold mantissaOk
    rw [takeWhile_all _ _ hdot, dropWhile_all _ _ hdot]
  have hfloat : pyFloatOk v = digitsUS (dropSign (pyStripList v.data)) := by
    unfold pyFloatOk
    rw [if_neg (by simp [hsp]), takeWhile_all _ _ hexp, dropWhile_all _ _ hexp]
    exact hmant
  rw [hfloat] at hf
  -- hf : digitsUS (dropSign (pyStripList v.data)) = true
  unfold pyIntParse
  rcases hc : pyStripList v.data with _ | ⟨c, rest⟩
  · rw [hc] at hf
    simp [dropSign, digitsUS] at hf
  · rw [hc] at hf
    by_cases hplus : c = '+'
    · subst hplus
      simp [dropSign] at hf
      simp [hf]
    · by_cases hminus : c = '-'
      · subst hminus
        simp [dropSign] at hf
        simp [hplus, hf]
      · simp [dropSign, hplus, hminus] at hf
        simp [hplus, hminus, hf]

/-- C4 (amended): for a non-readonly field, `coerce_form_data` yields — for
a boolean field, true iff the field name is a key of the raw submission;
for a number field with non-blank stripped value `v`, the integer `int(v)`
when Python's `int` accepts `v`, else the float `float(v)` when `float`
accepts it (raising otherwise); for any other non-blank value, the stripped
string itself; and for a blank value, null when optional and `""` when
required.  Moreover a value with no decimal/exponent marker that `float`
accepts (special words aside) is always accepted by `int`, so the
integer-when-unmarked reading holds for `coerce_form_data`; the
counterexample shows `_coerce_form_data` instead raises on `"1e3"`. -/
theorem C4_coerce_form_data_amended (f : FieldConfig) (raw : List (String × String))
    (hro : f.readonly = false) :
    (coerce_form_data [f] raw =
      (if f.field_type = FieldType.boolean then
        some [(f.name, PyValue.bool (hasKey raw f.name))]
      else if (f.field_type = FieldType.number : Bool)
          && !(pyStrip ((dictGet? raw f.name).getD "") = "" : Bool) then
        match pyIntParse (pyStrip ((dictGet? raw f.name).getD "")) with
        | some n => some [(f.name, PyValue.int n)]
        | Option.none =>
            if pyFloatOk (pyStrip ((dictGet? raw f.name).getD "")) then
              some [(f.name, PyValue.float (pyStrip ((dictGet? raw f.name).getD "")))]
            else Option.none
      else if !(pyStrip ((dictGet? raw f.name).getD "") = "" : Bool) then
        some [(f.name, PyValue.str (pyStrip ((dictGet? raw f.name).getD "")))]
      else
        some [(f.name, if f.required then PyValue.str "" else PyValue.none)])) ∧
    (∀ v : String, hasNumericMarker v = false → pyFloatOk v = true →
      isSpecialFloatStr v = false → (pyIntParse v).isSome = true) := by
  constructor
  · show (if f.readonly then coerceAux raw [] [] else _) = _
    rw [hro]
    simp only [Bool.false_eq_true, if_false]
    split_ifs <;> rfl
  · exact pyIntParse_of_unmarked

/-- C4 counterexample: on a number field submitted as `"1e3"` (which has an
exponent marker and is a valid float), `resource_create.py`'s
`_coerce_form_data` raises `ValueError` instead of yielding a float, because
its branch keys on the presence of a decimal point and `int("1e3")` fails;
`forms.py`'s `coerce_form_data` yields the float. -/
theorem C4_claim_counterexample :
    under_coerce_form_data [numberField] [("n", "1e3")] = Option.none ∧
    hasNumericMarker "1e3" = true ∧
    pyFloatOk "1e3" = true ∧
    coerce_form_data [numberField] [("n", "1e3")] = some [("n", PyValue.float "1e3")] := by
  decide

/-- Witness for C4 on the number field with submission `"12"`. -/
theorem C4_coerce_form_data_amended_witness :
    numberField.readonly = false ∧
    coerce_form_data [numberField] [("n", "12")] = some [("n", PyValue.int 12)] :=
  ⟨rfl, by
    rw [(C4_coerce_form_data_amended numberField [("n", "12")] rfl).1]
    decide⟩

/-! ## C10: whitespace handling -/
/-- The head of a non-empty `dropWhile` result fails the predicate. -/
theorem dropWhile_head_false {α : Type} (p : α → Bool) :
    ∀ (l : List α) (c : α) (r : List α), l.dropWhile p = c :: r → p c = false := by
  intro l
  induction l with
  | nil => intro c r h; cases h
  | cons a rest ih =>
      intro c r h
      by_cases ha : p a = true
      · rw [List.dropWhile_cons, if_pos ha] at h
        exact ih c r h
      · rw [List.dropWhile_cons, if_neg ha] at h
        injection h with h1 h2
        subst h1
        simpa using ha

/-- `dropWhile` only removes a prefix. -/
theorem dropWhile_suffix_ex {α : Type} (p : α → Bool) :
    ∀ l : List α, ∃ t, t ++ l.dropWhile p = l := by
  intro l
  induction l with
  | nil => exact ⟨[], rfl⟩
  | cons a rest ih =>
      by_cases ha : p a = true
      · rcases ih with ⟨t, ht⟩
        refine ⟨a :: t, ?_⟩
        rw [List.dropWhile_cons, if_pos ha, List.cons_append, ht]
      · refine ⟨[], ?_⟩
        rw [List.dropWhile_cons, if_neg ha, List.nil_append]

/-- `dropWhile` is idempotent. -/
theorem dropWhile_idem {α : Type} (p : α → Bool) (l : List α) :
    (l.dropWhile p).dropWhile p = l.dropWhile p := by
  rcases h : l.dropWhile p with _ | ⟨c, r⟩
  · rfl
  · have hc := dropWhile_head_false p l c r h
    rw [List.dropWhile_cons, if_neg (by simp [hc])]

/-- A stripped list has no leading whitespace. -/
theorem pyStripList_dropWhile (l : List Char) :
    (pyStripList l).dropWhile isPySpace = pyStripList l := by
  unfold pyStripList
  obtain ⟨t, ht⟩ := dropWhile_suffix_ex isPySpace (l.dropWhile isPySpace).reverse
  rcases hm : ((l.dropWhile isPySpace).reverse.dropWhile isPySpace).reverse
      with _ | ⟨c, r⟩
  · rfl
  · have hd : l.dropWhile isPySpace =
        ((l.dropWhile isPySpace).reverse.dropWhile isPySpace).reverse ++ t.reverse := by
      calc l.dropWhile isPySpace
          = (l.dropWhile isPySpace).reverse.reverse := (List.reverse_reverse _).symm
        _ = (t ++ (l.dropWhile isPySpace).reverse.dropWhile isPySpace).reverse := by
            rw [ht]
        _ = ((l.dropWhile isPySpace).reverse.dropWhile isPySpace).reverse ++
              t.reverse := by rw [List.reverse_append]
    rw [hm] at hd
    have hc : isPySpace c = false :=
      dropWhile_head_false isPySpace l c (r ++ t.reverse) (by rw [hd]; rfl)
    rw [List.dropWhile_cons, if_neg (by simp [hc])]

/-- Stripping is idempotent on character lists. -/
theorem pyStripList_idem (l : List Char) :
    pyStripList (pyStripList l) = pyStripList l := by
  show (((pyStripList l).dropWhile isPySpace).reverse.dropWhile isPySpace).reverse =
    pyStripList l
  rw [pyStripList_dropWhile]
  unfold pyStripList
  rw [List.reverse_reverse, dropWhile_idem]

/-- `str.strip()` is idempotent. -/
theorem pyStrip_idem (s : String) : pyStrip (pyStrip s) = pyStrip s := by
  show String.mk (pyStripList (String.mk (pyStripList s.data)).data) = _
  rw [show (String.mk (pyStripList s.data)).data = pyStripList s.data from rfl,
    pyStripList_idem]
  rfl

/-- Dropping over an all-satisfying prefixed block. -/
theorem dropWhile_append_all {α : Type} (p : α → Bool) :
    ∀ (a l : List α), (∀ c ∈ a, p c = true) →
      (a ++ l).dropWhile p = l.dropWhile p := by
  intro a
  induction a with
  | nil => intro l _; rfl
  | cons x rest ih =>
      intro l h
      rw [List.cons_append, List.dropWhile_cons, if_pos (h x (by simp))]
      exact ih l (fun c hc => h c (by simp [hc]))

/-- `dropWhile` over an append when the left part vanishes entirely. -/
theorem dropWhile_append_nil {α : Type} (p : α → Bool) :
    ∀ (l b : List α), l.dropWhile p = [] →
      (l ++ b).dropWhile p = b.dropWhile p := by
  intro l
  induction l with
  | nil => intro b _; rfl
  | cons a rest ih =>
      intro b h
      by_cases ha : p a = true
      · rw [List.dropWhile_cons, if_pos ha] at h
        rw [List.cons_append, List.dropWhile_cons, if_pos ha]
        exact ih b h
      · rw [List.dropWhile_cons, if_neg ha] at h
        cases h

/-- `dropWhile` over an append when the left part survives. -/
theorem dropWhile_append_cons {α : Type} (p : α → Bool) :
    ∀ (l b : List α) (c : α) (r : List α), l.dropWhile p = c :: r →
      (l ++ b).dropWhile p = c :: (r ++ b) := by
  intro l
  induction l with
  | nil => intro b c r h; cases h
  | cons a rest ih =>
      intro b c r h
      by_cases ha : p a = true
      · rw [List.dropWhile_cons, if_pos ha] at h
        rw [List.cons_append, List.dropWhile_cons, if_pos ha]
        exact ih b c r h
      · rw [List.dropWhile_cons, if_neg ha] at h
        injection h with h1 h2
        subst h1
        subst h2
        rw [List.cons_append, List.dropWhile_cons, if_neg ha]

/-- Stripping ignores all-whitespace padding on both sides. -/
theorem pyStripList_pad (w1 l w2 : List Char) (h1 : ∀ c ∈ w1, isPySpace c = true)
    (h2 : ∀ c ∈ w2, isPySpace c = true) :
    pyStripList (w1 ++ (l ++ w2)) = pyStripList l := by
  unfold pyStripList
  rcases hd : l.dropWhile isPySpace with _ | ⟨c, r⟩
  · rw [dropWhile_append_all _ _ _ h1, dropWhile_append_nil _ _ _ hd,
      dropWhile_all _ _ h2]
  · rw [dropWhile_append_all _ _ _ h1, dropWhile_append_cons _ _ _ _ _ hd,
      show c :: (r ++ w2) = (c :: r) ++ w2 from rfl, List.reverse_append,
      dropWhile_append_all _ _ _ (fun x hx => h2 x (List.mem_reverse.mp hx))]

/-- String-level version of `pyStripList_pad`. -/
theorem pyStrip_pad (w1 v w2 : String) (h1 : w1.data.all isPySpace = true)
    (h2 : w2.data.all isPySpace = true) :
    pyStrip (w1 ++ v ++ w2) = pyStrip v := by
  unfold pyStrip
  congr 1
  have hd : (w1 ++ v ++ w2).data = w1.data ++ (v.data ++ w2.data) := by
    rw [String.data_append, String.data_append, List.append_assoc]
  rw [hd]
  exact pyStripList_pad _ _ _ (List.all_eq_true.mp h1) (List.all_eq_true.mp h2)

/-- Stripping an all-whitespace string gives the empty string. -/
theorem pyStrip_allspace (w : String) (h : w.data.all isPySpace = true) :
    pyStrip w = "" := by
  unfold pyStrip pyStripList
  rw [dropWhile_all _ _ (List.all_eq_true.mp h)]
  rfl

/-- Whitespace-padding every value leaves stripped lookups and key presence
unchanged. -/
theorem padded_dictGet (data data' : List (String × String))
    (hpad : List.Forall₂ wsPadPair data data') (k : String) :
    pyStrip ((dictGet? data' k).getD "") = pyStrip ((dictGet? data k).getD "") ∧
    hasKey data' k = hasKey data k := by
  induction hpad with
  | nil => exact ⟨rfl, rfl⟩
  | @cons a b l1 l2 hpq htail ih =>
      rcases a with ⟨ka, va⟩
      rcases b with ⟨kb, vb⟩
      rcases hpq with ⟨hk, w1, w2, hw1, hw2, hv⟩
      have hk' : kb = ka := hk
      by_cases hak : ka = k
      · have hbk : kb = k := by rw [hk', hak]
        constructor
        · show pyStrip ((if kb = k then some vb else dictGet? l2 k).getD "") =
            pyStrip ((if ka = k then some va else dictGet? l1 k).getD "")
          rw [if_pos hbk, if_pos hak]
          show pyStrip vb = pyStrip va
          have hv' : vb = w1 ++ va ++ w2 := hv
          rw [hv']
          exact pyStrip_pad w1 va w2 hw1 hw2
        · show ((if kb = k then some vb else dictGet? l2 k)).isSome =
            ((if ka = k then some va else dictGet? l1 k)).isSome
          rw [if_pos hbk, if_pos hak]
          rfl
      · have hbk : ¬ kb = k := by rw [hk']; exact hak
        constructor
        · show pyStrip ((if kb = k then some vb else dictGet? l2 k).getD "") =
            pyStrip ((if ka = k then some va else dictGet? l1 k).getD "")
          rw [if_neg hbk, if_neg hak]
          exact ih.1
        · show ((if kb = k then some vb else dictGet? l2 k)).isSome =
            ((if ka = k then some va else dictGet? l1 k)).isSome
          rw [if_neg hbk, if_neg hak]
          exact ih.2

/-- The per-field error depends on the data only through the stripped
lookup. -/
theorem amendedFieldError_congr (data data' : List (String × String))
    (hval : ∀ k, pyStrip ((dictGet? data' k).getD "") =
      pyStrip ((dictGet? data k).getD "")) (f : FieldConfig) :
    amendedFieldError data' f = amendedFieldError data f := by
  unfold amendedFieldError
  rw [hval f.name]

/-- `validate_form`'s loop depends on the data only through the stripped
lookups. -/
theorem validateAux_congr (data data' : List (String × String))
    (hval : ∀ k, pyStrip ((dictGet? data' k).getD "") =
      pyStrip ((dictGet? data k).getD "")) :
    ∀ (fields : List FieldConfig) (errors : List (String × String)),
      validateAux data' fields errors = validateAux data fields errors := by
  intro fields
  induction fields with
  | nil => intro _; rfl
  | cons f rest ih =>
      intro errors
      rw [validateAux_cons_eq, validateAux_cons_eq,
        amendedFieldError_congr data data' hval f, ih]

/-- One step of the coercion loop. -/
theorem coerceAux_cons_eq (raw : List (String × String)) (f : FieldConfig)
    (rest : List FieldConfig) (result : List (String × PyValue)) :
    coerceAux raw (f :: rest) result =
      if f.readonly then coerceAux raw rest result
      else
        match coerceFieldValue raw f with
        | Option.none => Option.none
        | some v => coerceAux raw rest (dictInsert result f.name v) := by
  show (if f.readonly then coerceAux raw rest result else _) = _
  by_cases hro : f.readonly = true
  · rw [if_pos hro, if_pos hro]
  · rw [if_neg hro, if_neg hro]
    by_cases hbool : f.field_type = FieldType.boolean
    · simp [coerceFieldValue, hbool]
    · by_cases hnum : ((f.field_type = FieldType.number : Bool)
          && !(pyStrip ((dictGet? raw f.name).getD "") = "" : Bool)) = true
      · rcases hip : pyIntParse (pyStrip ((dictGet? raw f.name).getD "")) with _ | n
        · by_cases hfl : pyFloatOk (pyStrip ((dictGet? raw f.name).getD "")) = true
          · simp [coerceFieldValue, hbool, hnum, hip, hfl]
          · simp [coerceFieldValue, hbool, hnum, hip, hfl]
        · simp [coerceFieldValue, hbool, hnum, hip]
      · by_cases hblank : (!(pyStrip ((dictGet? raw f.name).getD "") = "" : Bool)) = true
        · have hnn : ¬ f.field_type = FieldType.number := by
            intro hfn
            exact hnum (by simp [hfn, hblank])
          simp [coerceFieldValue, hbool, hnn, hblank]
        · by_cases hreq : f.required = true
          · simp [coerceFieldValue, hbool, hnum, hblank, hreq]
          · simp [coerceFieldValue, hbool, hnum, hblank, hreq]

/-- The per-field coercion depends on the raw dict only through the
stripped lookup and key presence. -/
theorem coerceFieldValue_congr (raw raw' : List (String × String))
    (hval : ∀ k, pyStrip ((dictGet? raw' k).getD "") =
      pyStrip ((dictGet? raw k).getD ""))
    (hkey : ∀ k, hasKey raw' k = hasKey raw k) (f : FieldConfig) :
    coerceFieldValue raw' f = coerceFieldValue raw f := by
  unfold coerceFieldValue
  rw [hval f.name, hkey f.name]

/-- `coerce_form_data`'s loop depends on the raw dict only through the
stripped lookups and key presence. -/
theorem coerceAux_congr (raw raw' : List (String × String))
    (hval : ∀ k, pyStrip ((dictGet? raw' k).getD "") =
      pyStrip ((dictGet? raw k).getD ""))
    (hkey : ∀ k, hasKey raw' k = hasKey raw k) :
    ∀ (fields : List FieldConfig) (result : List (String × PyValue)),
      coerceAux raw' fields result = coerceAux raw fields result := by
  intro fields
  induction fields with
  | nil => intro _; rfl
  | cons f rest ih =>
      intro result
      rw [coerceAux_cons_eq, coerceAux_cons_eq,
        coerceFieldValue_congr raw raw' hval hkey f]
      by_cases hro : f.readonly = true
      · rw [if_pos hro, if_pos hro, ih]
      · rw [if_neg hro, if_neg hro]
        rcases coerceFieldValue raw f with _ | v
        · rfl
        · exact ih _

/-- `dictInsert` preserves `strippedStrVals` when the inserted value does. -/
theorem dictInsert_strippedStrVals (k : String) (v : PyValue)
    (hv : ∀ s, v = PyValue.str s → pyStrip s = s) :
    ∀ m : List (String × PyValue), strippedStrVals m →
      strippedStrVals (dictInsert m k v) := by
  intro m
  induction m with
  | nil =>
      intro _ kv hkv s hs
      rcases List.mem_cons.mp hkv with rfl | h
      · exact hv s hs
      · cases h
  | cons p rest ih =>
      intro hm kv hkv s hs
      rcases p with ⟨k', v'⟩
      unfold dictInsert at hkv
      split_ifs at hkv
      · rcases List.mem_cons.mp hkv with rfl | h
        · exact hv s hs
        · exact hm kv (List.mem_cons_of_mem _ h) s hs
      · rcases List.mem_cons.mp hkv with rfl | h
        · exact hm (k', v') (by simp) s hs
        · exact ih (fun kv2 h2 => hm kv2 (List.mem_cons_of_mem _ h2)) kv h s hs

/-- Any string value a field coerces to is already stripped. -/
theorem coerceFieldValue_str (raw : List (String × String)) (f : FieldConfig) :
    ∀ s, coerceFieldValue raw f = some (PyValue.str s) → pyStrip s = s := by
  intro s h
  by_cases hbool : f.field_type = FieldType.boolean
  · simp [coerceFieldValue, hbool] at h
  · by_cases hnum : ((f.field_type = FieldType.number : Bool)
        && !(pyStrip ((dictGet? raw f.name).getD "") = "" : Bool)) = true
    · rcases hip : pyIntParse (pyStrip ((dictGet? raw f.name).getD "")) with _ | n
      · by_cases hfl : pyFloatOk (pyStrip ((dictGet? raw f.name).getD "")) = true
        · simp [coerceFieldValue, hbool, hnum, hip, hfl] at h
        · simp [coerceFieldValue, hbool, hnum, hip, hfl] at h
      · simp [coerceFieldValue, hbool, hnum, hip] at h
    · by_cases hblank : (!(pyStrip ((dictGet? raw f.name).getD "") = "" : Bool)) = true
      · have hnn : ¬ f.field_type = FieldType.number := by
          intro hfn
          exact hnum (by simp [hfn, hblank])
        simp [coerceFieldValue, hbool, hnn, hblank] at h
        subst h
        exact pyStrip_idem _
      · by_cases hreq : f.required = true
        · simp [coerceFieldValue, hbool, hnum, hblank, hreq] at h
          subst h
          rfl
        · simp [coerceFieldValue, hbool, hnum, hblank, hreq] at h

/-- The coercion loop only adds stripped string values. -/
theorem coerceAux_strippedStrVals (raw : List (String × String)) :
    ∀ (fields : List FieldConfig) (result m : List (String × PyValue)),
      strippedStrVals result → coerceAux raw fields result = some m →
      strippedStrVals m := by
  intro fields
  induction fields with
  | nil =>
      intro result m hres h
      injection h with h'
      rw [← h']
      exact hres
  | cons f rest ih =>
      intro result m hres h
      rw [coerceAux_cons_eq] at h
      split_ifs at h
      · exact ih result m hres h
      · rcases hcv : coerceFieldValue raw f with _ | v <;> rw [hcv] at h
        · cases h
        · refine ih _ m (dictInsert_strippedStrVals f.name v ?_ result hres) h
          intro s hs
          rw [hs] at hcv
          exact coerceFieldValue_str raw f s hcv

/-- C10: `validate_form` and `coerce_form_data` are invariant under padding
any submitted value with leading/trailing whitespace (both strip each value
before every check; boolean presence detection, keyed on the raw mapping's
keys, is unaffected); no string value produced by coercion carries
leading or trailing whitespace; and a required non-boolean field submitted
as whitespace only is rejected with the "required" error exactly like an
absent field. -/
theorem C10_whitespace_invariance (fields : List FieldConfig)
    (data data' : List (String × String))
    (hpad : List.Forall₂ wsPadPair data data') :
    validate_form fields data' = validate_form fields data ∧
    coerce_form_data fields data' = coerce_form_data fields data ∧
    (∀ m, coerce_form_data fields data = some m →
      ∀ kv ∈ m, ∀ s, kv.2 = PyValue.str s → pyStrip s = s) ∧
    (∀ f : FieldConfig, f.required = true → f.readonly = false →
      f.field_type ≠ FieldType.boolean →
      ∀ w : String, w.data.all isPySpace = true →
        validate_form [f] [(f.name, w)] = [(f.name, "This field is required.")] ∧
        validate_form [f] ([] : List (String × String)) =
          [(f.name, "This field is required.")]) := by
  have hval : ∀ k, pyStrip ((dictGet? data' k).getD "") =
      pyStrip ((dictGet? data k).getD "") :=
    fun k => (padded_dictGet data data' hpad k).1
  have hkey : ∀ k, hasKey data' k = hasKey data k :=
    fun k => (padded_dictGet data data' hpad k).2
  refine ⟨validateAux_congr data data' hval fields [],
    coerceAux_congr data data' hval hkey fields [], ?_, ?_⟩
  · intro m hm
    exact coerceAux_strippedStrVals data fields [] m (by intro kv h; cases h) hm
  · intro f hreq hro hb w hw
    have hone : ∀ d : List (String × String),
        pyStrip ((dictGet? d f.name).getD "") = "" →
        validate_form [f] d = [(f.name, "This field is required.")] := by
      intro d hvd
      have h1 : validate_form [f] d =
          applyFieldError [] f.name (amendedFieldError d f) := by
        show validateAux d [f] [] = _
        rw [validateAux_cons_eq]
        rfl
      have h2 : amendedFieldError d f = some "This field is required." := by
        unfold amendedFieldError
        rw [if_neg (by simp [hro])]
        rw [if_pos (by simp [hreq, hb, hvd])]
      rw [h1, h2]
      rfl
    constructor
    · refine hone _ ?_
      have : dictGet? [(f.name, w)] f.name = some w := by
        unfold dictGet?
        rw [if_pos rfl]
      rw [this]
      exact pyStrip_allspace w hw
    · refine hone _ ?_
      rfl

/-- Witness for C10: padding `"Alice"` with spaces leaves validation
unchanged. -/
theorem C10_whitespace_invariance_witness :
    (List.Forall₂ wsPadPair [("name", "Alice")] [("name", "  Alice ")]) ∧
    validate_form [nameField] [("name", "  Alice ")] =
      validate_form [nameField] [("name", "Alice")] := by
  have hpad : List.Forall₂ wsPadPair [("name", "Alice")] [("name", "  Alice ")] :=
    List.Forall₂.cons ⟨rfl, "  ", " ", by decide, by decide, by decide⟩
      List.Forall₂.nil
  exact ⟨hpad, (C10_whitespace_invariance [nameField] _ _ hpad).1⟩
